import Mathlib

/-!
Verification of the turn resolution engine of "Alien in the Machine".

The repository contains two pipelines:
* the 5-phase LangGraph engine (`src/backend/app/game_loop/engine.py` over the
  data model of `src/backend/app/state/schemas.py`), embedded in the
  `GameLoop` namespace;
* the FastAPI pipeline (`src/backend/app/main.py`, `game_manager.py` over
  `src/backend/app/schemas.py`), embedded in the `WebApi` namespace.

Python machine behaviour is made explicit: the `random.randint` source becomes
a dice stream parameter, `try/except` paths become `Option` results, and
Python truthiness tests (`if obj.properties.get(..)`, `if director_result.success`)
are embedded by explicit truthiness functions.
-/

namespace GameLoop

/-- Truthiness of a Python `Optional[str]` value: `None` and `""` are falsy. -/
def pyTruthyStr : Option String → Bool
  | none => false
  | some s => s ≠ ""

/-- Truthiness of a Python `Optional[bool]` value: `None` and `False` are falsy. -/
def pyTruthyOptBool : Option Bool → Bool
  | none => false
  | some b => b

/-- `CharacterAttributes` from `state/schemas.py` (each field bounded to [0,5]
by pydantic validators; the bound appears as a hypothesis where needed). -/
structure CharacterAttributes where
  might : Nat
  agility : Nat
  wits : Nat
  empathy : Nat
deriving Repr, DecidableEq

/-- `CharacterSkills` from `state/schemas.py`. -/
structure CharacterSkills where
  comtech : Nat
  heavy_machinery : Nat
  stamina : Nat
  close_combat : Nat
  ranged_combat : Nat
  piloting : Nat
  command : Nat
  manipulation : Nat
  medical_aid : Nat
  mobility : Nat
  observation : Nat
  survival : Nat
deriving Repr, DecidableEq

/-- The engine reads skills with `getattr(character.skills, skill_name, 0)`:
dynamic attribute lookup by name with default 0. -/
def CharacterSkills.pyGetattr (s : CharacterSkills) (name : String) : Nat :=
  if name = "comtech" then s.comtech
  else if name = "heavy_machinery" then s.heavy_machinery
  else if name = "stamina" then s.stamina
  else if name = "close_combat" then s.close_combat
  else if name = "ranged_combat" then s.ranged_combat
  else if name = "piloting" then s.piloting
  else if name = "command" then s.command
  else if name = "manipulation" then s.manipulation
  else if name = "medical_aid" then s.medical_aid
  else if name = "mobility" then s.mobility
  else if name = "observation" then s.observation
  else if name = "survival" then s.survival
  else 0

/-- `CharacterStatus` from `state/schemas.py`. -/
structure CharacterStatus where
  health : String
  stress : Nat
  conditions : List String
deriving Repr, DecidableEq

/-- `Character` from `state/schemas.py`. -/
structure Character where
  name : String
  attributes : CharacterAttributes
  skills : CharacterSkills
  inventory : List String
  agenda : String
  status : CharacterStatus
  current_zone : String
deriving Repr, DecidableEq

/-- `ZoneExit` from `state/schemas.py` (the `to` field is named `toZone`
because `to` collides with Lean syntax). -/
structure ZoneExit where
  toZone : String
  status : String
  description : Option String
  requirements : List String
deriving Repr, DecidableEq

/-- `ZoneObject` from `state/schemas.py`; the `properties` bag
(`Dict[str, Any]`) is embedded with string values, which covers every key the
engine reads (`required_skill`, `difficulty`). -/
structure ZoneObject where
  name : String
  description : String
  status : String
  properties : List (String × String)
  can_interact : Bool
deriving Repr, DecidableEq

/-- `Zone` from `state/schemas.py`; Python dicts become association lists. -/
structure Zone where
  id : String
  name : String
  description : String
  exits : List (String × ZoneExit)
  objects : List (String × ZoneObject)
  atmosphere : Option String
deriving Repr, DecidableEq

/-- `ActionSpeed` from `state/schemas.py`. -/
inductive ActionSpeed
  | slow
  | fast
deriving Repr, DecidableEq

/-- `ActionIntent` from `state/schemas.py` (the `using` field is named
`usingItem` because `using` collides with Lean syntax). -/
structure ActionIntent where
  verb : String
  target : String
  usingItem : Option String
  speed : ActionSpeed
  rationale : String
deriving Repr, DecidableEq

/-- `DirectorResult` from `state/schemas.py`; `state_updates : Dict[str, Any]`
only ever holds string values in the engine. -/
structure DirectorResult where
  skill_check_needed : Bool
  skill_used : Option String
  difficulty : Option String
  success : Option Bool
  narration : String
  state_updates : List (String × String)
deriving Repr, DecidableEq

/-- `ActorResponse` from `state/schemas.py`. -/
structure ActorResponse where
  thoughts : String
  speech : String
  action_intent : ActionIntent
deriving Repr, DecidableEq

/-- `TurnResult` from `state/schemas.py`. -/
structure TurnResult where
  helmet_cam_feed : String
  character_speech : String
  state_changes : List (String × String)
  turn_number : Nat
  active_character : String
deriving Repr, DecidableEq

/-- `GameState` from `state/schemas.py`; `mission_status : Dict[str, Any]`
holds only string values in this repository. -/
structure GameState where
  characters : List (String × Character)
  zones : List (String × Zone)
  current_turn : Nat
  active_character_id : String
  turn_order : List String
  game_log : List TurnResult
  mission_status : List (String × String)
deriving Repr, DecidableEq

/-- The attribute table of `run_director_resolver` (engine.py lines 204-211):
a dict literal from skill name to the character's attribute value. -/
def attribute_map (a : CharacterAttributes) : List (String × Nat) :=
  [("comtech", a.wits),
   ("heavy_machinery", a.might),
   ("medical_aid", a.empathy),
   ("observation", a.wits),
   ("close_combat", a.might),
   ("ranged_combat", a.agility)]

/-- `attribute_map.get(skill_name, character.attributes.wits)` (line 213). -/
def attributeValue (a : CharacterAttributes) (skill_name : String) : Nat :=
  ((attribute_map a).lookup skill_name).getD a.wits

/-- The difficulty table of `run_director_resolver` (engine.py lines 220-226). -/
def difficulty_map : List (String × Nat) :=
  [("trivial", 6), ("easy", 8), ("moderate", 10), ("hard", 12), ("extreme", 14)]

/-- `difficulty_map.get(director_result.difficulty, 10)` (line 228): a `None`
or unknown difficulty falls back to threshold 10. -/
def thresholdOf (difficulty : Option String) : Nat :=
  match difficulty with
  | none => 10
  | some d => (difficulty_map.lookup d).getD 10

/-- `run_director_interpreter` (engine.py lines 139-183), as a function of the
intent and zone it reads.  Python's `if target in zone.objects: ... elif
target in zone.exits: ...` becomes the nested match; the truthiness test
`if obj.properties.get("required_skill"):` uses `pyTruthyStr`. -/
def run_director_interpreter (intent : ActionIntent) (zone : Zone) : DirectorResult :=
  match zone.objects.lookup intent.target with
  | some obj =>
      if pyTruthyStr (obj.properties.lookup "required_skill") then
        { skill_check_needed := true
          skill_used := obj.properties.lookup "required_skill"
          difficulty := some ((obj.properties.lookup "difficulty").getD "moderate")
          success := none
          narration := ""
          state_updates := [] }
      else
        { skill_check_needed := false, skill_used := none, difficulty := none
          success := none, narration := "", state_updates := [] }
  | none =>
      match zone.exits.lookup intent.target with
      | some ex =>
          if ex.status = "locked" then
            { skill_check_needed := true
              skill_used := some "comtech"
              difficulty := some "moderate"
              success := none
              narration := ""
              state_updates := [] }
          else
            { skill_check_needed := false, skill_used := none, difficulty := none
              success := none, narration := "", state_updates := [] }
      | none =>
          { skill_check_needed := false, skill_used := none, difficulty := none
            success := none, narration := "", state_updates := [] }

/-- `run_director_resolver` (engine.py lines 185-236).  The two
`random.randint(1, 6)` draws are taken from the dice stream `dice` at
positions 0 and 1; the second component of the result counts the draws
consumed.  When `skill_check_needed` is set but `skill_used` is `None`,
Python's `getattr(character.skills, None, 0)` raises `TypeError`, embedded as
`none`. -/
def run_director_resolver (character : Character) (dr : DirectorResult)
    (dice : Nat → Nat) : Option (DirectorResult × Nat) :=
  if dr.skill_check_needed = false then
    some ({ dr with success := some true }, 0)
  else
    match dr.skill_used with
    | none => none
    | some skill_name =>
        let skill_value := character.skills.pyGetattr skill_name
        let attribute_value := attributeValue character.attributes skill_name
        let dice_roll := dice 0 + dice 1
        let total := dice_roll + attribute_value + skill_value
        let threshold := thresholdOf dr.difficulty
        some ({ dr with success := some (decide (total ≥ threshold)) }, 2)

/-- `str.replace(old, new)` for a single-character pattern (the narrator only
replaces "_" by " "), embedded structurally on the character list. -/
def pyReplaceChar (s : String) (old new : Char) : String :=
  ⟨s.data.map (fun ch => if ch = old then new else ch)⟩

/-- `str.lower()`, embedded structurally on the character list. -/
def pyLower (s : String) : String :=
  ⟨s.data.map Char.toLower⟩

/-- `run_director_narrator` (engine.py lines 238-269): deterministic template
narration chosen from the verb, target and truthy `success`. -/
def run_director_narrator (character : Character) (intent : ActionIntent)
    (dr : DirectorResult) : DirectorResult :=
  let success := pyTruthyOptBool dr.success
  let narration :=
    if intent.verb = "REPAIR" ∧ intent.target = "door_control_panel_north" then
      if success then
        character.name ++ " carefully works on the damaged control panel with her multitool. Sparks fly as she reroutes damaged circuits. After several tense minutes, the panel flickers back to life with a soft chime."
      else
        character.name ++ " attempts to repair the control panel, but the damage is worse than expected. Her multitool sparks against the fried circuits, and the panel remains dark and unresponsive."
    else if intent.verb = "EXAMINE" then
      character.name ++ " takes a closer look at the " ++ (pyReplaceChar intent.target '_' ' ') ++ ", studying its condition and looking for ways to interact with it."
    else
      let action_desc := if success then "successfully completes" else "struggles with"
      character.name ++ " " ++ action_desc ++ " the " ++ pyLower intent.verb ++ " action on " ++ (pyReplaceChar intent.target '_' ' ') ++ "."
  { dr with narration := narration }

/-- Update the value stored at key `k` of a Python dict (association list);
models in-place mutation of the object held at that key. -/
def setAssoc {α : Type} (l : List (String × α)) (k : String) (f : α → α) :
    List (String × α) :=
  l.map (fun p => if p.1 = k then (p.1, f p.2) else p)

/-- Lines 281-295 of `run_director_state_updater`: compute the mutated zones
map and the `state_updates` dict.  The zone lookup
`game_state.zones[state.current_character.current_zone]` raises `KeyError`
when the key is absent, embedded as `none`; it is only reached inside the
success-and-REPAIR branch, exactly as in the source. -/
def computeStateUpdates (game_state : GameState) (character : Character)
    (intent : ActionIntent) (dr : DirectorResult) :
    Option (List (String × Zone) × List (String × String)) :=
  if pyTruthyOptBool dr.success = true ∧ intent.verb = "REPAIR" then
    if intent.target = "door_control_panel_north" then
      match game_state.zones.lookup character.current_zone with
      | none => none
      | some zone =>
          let objs := setAssoc zone.objects "door_control_panel_north" (fun o => { o with status := "functional" })
          let step1 : Zone × List (String × String) :=
            if (zone.objects.lookup "door_control_panel_north").isSome then
              ({ zone with objects := objs }, [("door_control_panel_north", "repaired")])
            else (zone, [])
          let exs := setAssoc step1.1.exits "north_door" (fun e => { e with status := "unlocked" })
          let step2 : Zone × List (String × String) :=
            if (step1.1.exits.lookup "north_door").isSome then
              ({ step1.1 with exits := exs }, step1.2 ++ [("north_door", "unlocked")])
            else step1
          some (setAssoc game_state.zones character.current_zone (fun _ => step2.1), step2.2)
    else some (game_state.zones, [])
  else some (game_state.zones, [])

/-- Lines 297-313 of `run_director_state_updater`: store `state_updates` on
the director result, build the `TurnResult` with the current turn number,
append it to the game log and increment the turn counter. -/
def finishTurn (game_state : GameState) (zones : List (String × Zone))
    (character : Character) (speech : String) (dr : DirectorResult)
    (state_updates : List (String × String)) :
    GameState × DirectorResult × TurnResult :=
  let dr := { dr with state_updates := state_updates }
  let turn_result : TurnResult :=
    { helmet_cam_feed := dr.narration
      character_speech := speech
      state_changes := state_updates
      turn_number := game_state.current_turn
      active_character := character.name }
  ({ game_state with
      zones := zones
      game_log := game_state.game_log ++ [turn_result]
      current_turn := game_state.current_turn + 1 },
   dr, turn_result)

/-- `run_director_state_updater` (engine.py lines 271-318). -/
def run_director_state_updater (game_state : GameState) (character : Character)
    (speech : String) (intent : ActionIntent) (dr : DirectorResult) :
    Option (GameState × DirectorResult × TurnResult) :=
  match computeStateUpdates game_state character intent dr with
  | none => none
  | some (zones, state_updates) =>
      some (finishTurn game_state zones character speech dr state_updates)

/-- The fallback `ActionIntent` built in the `except` branch of
`run_ai_actor` (engine.py lines 126-131). -/
def fallback_intent : ActionIntent :=
  { verb := "EXAMINE"
    target := "door_control_panel_north"
    usingItem := none
    speed := ActionSpeed.slow
    rationale := "Assess the situation before acting" }

/-- The fallback `ActorResponse` built in the `except` branch of
`run_ai_actor` (engine.py lines 132-136). -/
def fallback_response : ActorResponse :=
  { thoughts := "Something\x27s not right with my neural link. Better take this slow."
    speech := "Commander, I\x27m experiencing some... interference. Give me a moment."
    action_intent := fallback_intent }

/-- `run_ai_actor` (engine.py lines 41-137): the LLM call either yields a
parsed `ActorResponse` (`some r`) or raises (`none`); every exception is
caught and replaced by the fallback response — the node never fails. -/
def run_ai_actor (llm_outcome : Option ActorResponse) : ActorResponse :=
  match llm_outcome with
  | some r => r
  | none => fallback_response

/-- The compiled graph of `create_narrative_graph` (engine.py lines 320-341):
ai_actor → director_interpreter → director_resolver → director_narrator →
director_state_updater. -/
def run_narrative_graph (game_state : GameState) (character : Character)
    (zone : Zone) (llm_outcome : Option ActorResponse) (dice : Nat → Nat) :
    Option (GameState × TurnResult) :=
  let actor_response := run_ai_actor llm_outcome
  let dr1 := run_director_interpreter actor_response.action_intent zone
  match run_director_resolver character dr1 dice with
  | none => none
  | some (dr2, _) =>
      let dr3 := run_director_narrator character actor_response.action_intent dr2
      match run_director_state_updater game_state character actor_response.speech
          actor_response.action_intent dr3 with
      | none => none
      | some (game_state, _, turn_result) => some (game_state, turn_result)

/-- Miller's character literal from `state/initial_state.py`. -/
def miller : Character :=
  { name := "Vanessa Miller"
    attributes := { might := 2, agility := 2, wits := 2, empathy := 1 }
    skills :=
      { comtech := 1, heavy_machinery := 0, stamina := 1, close_combat := 1
        ranged_combat := 2, piloting := 0, command := 1, manipulation := 0
        medical_aid := 0, mobility := 1, observation := 1, survival := 1 }
    inventory := ["multitool", "pistol", "flashlight"]
    agenda := "Get the job done and get paid. Survival comes first, but the mission pays the bills."
    status := { health := "healthy", stress := 1, conditions := [] }
    current_zone := "medbay_b" }

/-- The `north_door` exit literal from `state/initial_state.py`. -/
def north_door : ZoneExit :=
  { toZone := "corridor_3"
    status := "locked"
    description := some "A heavy security door with a smashed access panel"
    requirements := ["repair_panel", "unlock_mechanism"] }

/-- The `door_control_panel_north` object literal from `state/initial_state.py`
(the boolean `repairable` property is embedded as the string "True"). -/
def door_panel : ZoneObject :=
  { name := "door_control_panel_north"
    description := "The access control panel for the north door. Sparks occasionally from damaged circuits."
    status := "smashed"
    properties := [("repairable", "True"), ("required_skill", "comtech"), ("difficulty", "moderate")]
    can_interact := true }

/-- The `medical_scanner` object literal from `state/initial_state.py`. -/
def medical_scanner : ZoneObject :=
  { name := "medical_scanner"
    description := "A wall-mounted diagnostic scanner, still operational"
    status := "functional"
    properties := [("power", "on"), ("last_scan", "unknown_patient")]
    can_interact := true }

/-- The `supply_cabinet` object literal from `state/initial_state.py` (the
list-valued `contents` property is embedded as a rendered string). -/
def supply_cabinet : ZoneObject :=
  { name := "supply_cabinet"
    description := "A locked medical supply cabinet"
    status := "locked"
    properties := [("contents", "medical_supplies emergency_stims"), ("lock_type", "keycard")]
    can_interact := true }

/-- The `medbay_b` zone literal from `state/initial_state.py`. -/
def medbay_b : Zone :=
  { id := "medbay_b"
    name := "Medical Bay B"
    description := "A sterile white medical facility. Emergency lighting casts everything in an amber glow. The air carries a sharp antiseptic smell mixed with ozone from damaged electronics. Sparks occasionally fly from the damaged door panel."
    exits := [("north_door", north_door)]
    objects :=
      [("door_control_panel_north", door_panel),
       ("medical_scanner", medical_scanner),
       ("supply_cabinet", supply_cabinet)]
    atmosphere := some "Tense and urgent. The flickering lights and damaged electronics suggest something has gone very wrong." }

/-- `create_initial_game_state` from `state/initial_state.py`. -/
def initial_game_state : GameState :=
  { characters := [("miller", miller)]
    zones := [("medbay_b", medbay_b)]
    current_turn := 1
    active_character_id := "miller"
    turn_order := ["miller"]
    game_log := []
    mission_status :=
      [("objective", "Escape from Medical Bay B"), ("status", "active"),
       ("time_pressure", "moderate")] }

/-- One turn of the engine, seen from the game state: either the turn commits
through `run_director_state_updater` with some inputs, or it aborts without
touching the state (any failure happens before the append/increment lines). -/
inductive TurnStep
  | committed (character : Character) (speech : String) (intent : ActionIntent)
      (dr : DirectorResult)
  | aborted

/-- Effect of one `TurnStep` on the game state: a committed turn runs
`run_director_state_updater`; an aborted turn (including a `KeyError` inside
the updater, which fires before any append/increment) leaves the state as is. -/
def runTurn (game_state : GameState) : TurnStep → GameState
  | TurnStep.committed c sp i dr =>
      match run_director_state_updater game_state c sp i dr with
      | some (gs, _, _) => gs
      | none => game_state
  | TurnStep.aborted => game_state

/-- A whole game: fold the turn steps over the state. -/
def runTurns (game_state : GameState) (steps : List TurnStep) : GameState :=
  steps.foldl runTurn game_state

end GameLoop

namespace WebApi

/-- `MessageType` from `app/schemas.py`. -/
inductive MessageType
  | SYSTEM
  | COMMANDER
  | AI_THOUGHTS
  | AI_DIALOGUE
  | AI_ACTION
deriving Repr, DecidableEq

/-- `LogEntry` from `app/schemas.py`. -/
structure LogEntry where
  turn : Nat
  type : MessageType
  content : String
  author : String
deriving Repr, DecidableEq

/-- The declared pydantic fields of `Zone` in `app/schemas.py`
(`name`, `description`, `exits`): the names for which
`hasattr(self.zone, key)` recognises a patchable model field. -/
def zoneFieldNames : List String := ["name", "description", "exits"]

/-- The declared pydantic fields of `Character` in `app/schemas.py`. -/
def characterFieldNames : List String :=
  ["name", "attributes", "skills", "inventory", "agenda", "status"]

/-- `hasattr(obj, key)` on a pydantic model instance: true for the declared
fields AND for every attribute the instance inherits from `BaseModel`
(methods and helpers such as `model_dump`, `copy`, `model_fields`, ...).
The inherited-attribute name set is kept abstract as `classAttrs`, so that
theorems quantifying over it hold for the true (large) set. -/
def pyHasattr (declared classAttrs : List String) (key : String) : Bool :=
  declared.contains key || classAttrs.contains key

/-- A representative subset of the attribute names every pydantic `BaseModel`
instance inherits (the real set is larger; the theorems are parametric in
it and this list only instantiates witnesses and counterexamples). -/
def pydanticClassAttrs : List String :=
  ["model_dump", "model_dump_json", "model_copy", "model_fields",
   "model_config", "model_validate", "dict", "json", "copy", "schema"]

/-- A pydantic model instance seen through `getattr`/`setattr`: a valuation
of its field names.  `apply_world_updates` treats `self.zone` and
`self.character` exactly this way (dynamic `setattr` by name, no
validation-on-assignment), so the patch semantics only depends on this view. -/
def PyInstance : Type := String → String

/-- pydantic `BaseModel.__setattr__`: assigns a declared field without
validating the value; for any other attribute name (including the inherited
methods that `hasattr` sees) it raises `ValueError`, embedded as `error`
with an abbreviated rendering of pydantic's "object has no field" message. -/
def pySetattr (declared : List String) (key value : String) (obj : PyInstance) :
    Except String PyInstance :=
  if declared.contains key then Except.ok (Function.update obj key value)
  else Except.error ("object has no field " ++ key)

/-- The `for key, value in updates.items(): if hasattr(obj, key):
setattr(obj, key, value)` loop of `GameManager.apply_world_updates`
(game_manager.py lines 75-85), for one object: keys `hasattr` does not see
are skipped silently; a key that passes the guard but is not a declared
field makes `setattr` raise, and the exception propagates immediately. -/
def applySetattrs (declared classAttrs : List String)
    (updates : List (String × String)) (obj : PyInstance) :
    Except String PyInstance :=
  match updates with
  | [] => Except.ok obj
  | kv :: rest =>
      if pyHasattr declared classAttrs kv.1 then
        match pySetattr declared kv.1 kv.2 obj with
        | Except.ok obj' => applySetattrs declared classAttrs rest obj'
        | Except.error e => Except.error e
      else applySetattrs declared classAttrs rest obj

/-- The field names of `updates` the loop actually assigns on a run that
does not raise — the `applied` report of the commit contract (the Python
function itself returns `None`; this is the observable set of fields it
sets). -/
def appliedFields (declared : List String) (updates : List (String × String)) :
    List String :=
  (updates.filter (fun kv => declared.contains kv.1)).map Prod.fst

/-- The mutable state of a `GameManager` (game_manager.py lines 19-25):
turn counter, game log, and the character and zone pydantic instances
(seen as attribute valuations). -/
structure GameManagerState where
  current_turn : Nat
  game_log : List LogEntry
  character : PyInstance
  zone : PyInstance

/-- `GameManager.add_log_entry` (game_manager.py lines 45-53). -/
def add_log_entry (gm : GameManagerState) (entry_type : MessageType)
    (content : String) (author : String) : GameManagerState :=
  { gm with game_log := gm.game_log ++
      [{ turn := gm.current_turn, type := entry_type, content := content, author := author }] }

/-- `GameManager.advance_turn` (game_manager.py lines 55-57). -/
def gm_advance_turn (gm : GameManagerState) : GameManagerState :=
  { gm with current_turn := gm.current_turn + 1 }

/-- `GameManager.apply_world_updates` (game_manager.py lines 68-88): the
patch is a dict that may hold `zone` and `character` sub-dicts; declared
fields are set, keys `hasattr` does not recognise are skipped, and a key
shadowing an inherited `BaseModel` attribute makes `setattr` raise, which
propagates out of the method (`error`).  (`_save_state` only writes files
and does not change the state.) -/
def apply_world_updates (classAttrs : List String) (gm : GameManagerState)
    (updates : List (String × List (String × String))) :
    Except String GameManagerState :=
  match (match updates.lookup "zone" with
         | some zone_updates =>
             (applySetattrs zoneFieldNames classAttrs zone_updates gm.zone).map
               (fun z => { gm with zone := z })
         | none => Except.ok gm) with
  | Except.error e => Except.error e
  | Except.ok gm1 =>
      match updates.lookup "character" with
      | some char_updates =>
          (applySetattrs characterFieldNames classAttrs char_updates gm1.character).map
            (fun c => { gm1 with character := c })
      | none => Except.ok gm1

/-- Python's `str.strip()` with no argument: drop whitespace from both ends
(embedded structurally on the character list). -/
def pyStrip (s : String) : String :=
  ⟨((s.data.dropWhile Char.isWhitespace).reverse.dropWhile Char.isWhitespace).reverse⟩

/-- The outcome of `narrative_engine.process_turn` as consumed by
`advance_turn` in main.py: the actor fields, the director narration and
world-update patch, and the `error` string ("" means no error, exactly the
truthiness test `if result["error"]:`). -/
structure ProcessTurnResult where
  actor_thoughts : String
  actor_speech : String
  narration : String
  world_updates : List (String × List (String × String))
  error : String

/-- An HTTP error response (`HTTPException`). -/
structure ApiError where
  status_code : Nat
  detail : String
deriving Repr, DecidableEq

/-- `advance_turn` in `main.py` (lines 62-147), with the AI capability
outcome passed in as `ai` (it is only consulted after the empty-command
rejection, as in the source) and the abstract inherited-attribute set
`classAttrs` threaded to the patch application.  Returns the final manager
state and either `ok` or the raised `HTTPException`.  Python truthiness of
strings and dicts ("" and the empty dict are falsy) drives the conditional
log entries and the `world_updates` application; a `ValueError` escaping
`apply_world_updates` is caught by the outer `except Exception` (lines
145-147), which logs one "Turn failed" system entry and raises a 500
without advancing the turn. -/
def advance_turn (classAttrs : List String) (gm : GameManagerState)
    (request_command : String) (ai : ProcessTurnResult) :
    GameManagerState × Except ApiError Unit :=
  let command := pyStrip request_command
  if command = "" then
    (gm, Except.error { status_code := 400, detail := "Command cannot be empty" })
  else
    let gm := add_log_entry gm MessageType.COMMANDER command "Commander"
    if ai.error ≠ "" then
      let gm := add_log_entry gm MessageType.SYSTEM ("AI Error: " ++ ai.error) "System"
      (gm, Except.error { status_code := 500, detail := ai.error })
    else
      let gm := if ai.actor_thoughts ≠ "" then
          add_log_entry gm MessageType.AI_THOUGHTS ai.actor_thoughts (gm.character "name")
        else gm
      let gm := if ai.actor_speech ≠ "" then
          add_log_entry gm MessageType.AI_DIALOGUE ai.actor_speech (gm.character "name")
        else gm
      let gm := if ai.narration ≠ "" then
          add_log_entry gm MessageType.AI_ACTION ai.narration "Director"
        else gm
      match (if ai.world_updates ≠ [] then apply_world_updates classAttrs gm ai.world_updates
             else Except.ok gm) with
      | Except.error e =>
          (add_log_entry gm MessageType.SYSTEM ("Turn failed: " ++ e) "System",
           Except.error { status_code := 500, detail := e })
      | Except.ok gm =>
          (gm_advance_turn gm, Except.ok ())

end WebApi

/-- C1: for attribute and skill values in [0,5] and any difficulty tier, the
resolver computes `roll_total` as two dice draws in [1,6] plus the attribute
value plus the skill value and returns `success = (roll_total >= threshold)`,
with thresholds trivial=6, easy=8, moderate=10, hard=12, extreme=14 and any
unknown or missing tier mapped to 10. -/
theorem C1_resolver_roll_total_and_thresholds
    (c : GameLoop.Character) (dr : GameLoop.DirectorResult) (s : String)
    (dice : Nat → Nat)
    (hcheck : dr.skill_check_needed = true)
    (hskill : dr.skill_used = some s)
    (hattr : GameLoop.attributeValue c.attributes s ≤ 5)
    (hskl : c.skills.pyGetattr s ≤ 5)
    (hd0 : 1 ≤ dice 0 ∧ dice 0 ≤ 6) (hd1 : 1 ≤ dice 1 ∧ dice 1 ≤ 6) :
    GameLoop.run_director_resolver c dr dice =
      some ({ dr with success := some (decide (dice 0 + dice 1 +
          GameLoop.attributeValue c.attributes s + c.skills.pyGetattr s ≥
          GameLoop.thresholdOf dr.difficulty)) }, 2)
    ∧ GameLoop.thresholdOf (some "trivial") = 6
    ∧ GameLoop.thresholdOf (some "easy") = 8
    ∧ GameLoop.thresholdOf (some "moderate") = 10
    ∧ GameLoop.thresholdOf (some "hard") = 12
    ∧ GameLoop.thresholdOf (some "extreme") = 14
    ∧ ∀ d : Option String,
        (∀ t, d = some t → t ∉ ["trivial", "easy", "moderate", "hard", "extreme"]) →
        GameLoop.thresholdOf d = 10 := by
  refine ⟨?_, rfl, rfl, rfl, rfl, rfl, ?_⟩
  · simp [GameLoop.run_director_resolver, hcheck, hskill]
  · intro d hd
    match d with
    | none => rfl
    | some t =>
        have ht := hd t rfl
        simp only [List.mem_cons, List.not_mem_nil, or_false, not_or] at ht
        obtain ⟨h1, h2, h3, h4, h5⟩ := ht
        have e1 : (t == "trivial") = false := by simp [h1]
        have e2 : (t == "easy") = false := by simp [h2]
        have e3 : (t == "moderate") = false := by simp [h3]
        have e4 : (t == "hard") = false := by simp [h4]
        have e5 : (t == "extreme") = false := by simp [h5]
        simp [GameLoop.thresholdOf, GameLoop.difficulty_map, List.lookup, e1, e2, e3, e4, e5]

/-- Witness for C1 at a concrete input: Miller, a comtech/moderate check and
both dice showing 4, so roll_total = 4+4+2+1 = 11 ≥ 10. -/
theorem C1_resolver_roll_total_and_thresholds_witness :
    GameLoop.run_director_resolver GameLoop.miller
      { skill_check_needed := true, skill_used := some "comtech"
        difficulty := some "moderate", success := none, narration := ""
        state_updates := [] } (fun _ => 4) =
      some ({ skill_check_needed := true, skill_used := some "comtech"
              difficulty := some "moderate"
              success := some (decide ((fun (_ : Nat) => 4) 0 + (fun (_ : Nat) => 4) 1 +
                GameLoop.attributeValue GameLoop.miller.attributes "comtech" +
                GameLoop.miller.skills.pyGetattr "comtech" ≥
                GameLoop.thresholdOf (some "moderate")))
              narration := "", state_updates := [] }, 2)
    ∧ GameLoop.thresholdOf (some "trivial") = 6
    ∧ GameLoop.thresholdOf (some "easy") = 8
    ∧ GameLoop.thresholdOf (some "moderate") = 10
    ∧ GameLoop.thresholdOf (some "hard") = 12
    ∧ GameLoop.thresholdOf (some "extreme") = 14
    ∧ ∀ d : Option String,
        (∀ t, d = some t → t ∉ ["trivial", "easy", "moderate", "hard", "extreme"]) →
        GameLoop.thresholdOf d = 10 :=
  C1_resolver_roll_total_and_thresholds GameLoop.miller
    { skill_check_needed := true, skill_used := some "comtech"
      difficulty := some "moderate", success := none, narration := ""
      state_updates := [] } "comtech" (fun _ => 4) rfl rfl (by decide) (by decide)
    (by decide) (by decide)

/-- C7: attribute selection is the fixed table comtech→wits,
heavy_machinery→might, medical_aid→empathy, observation→wits,
close_combat→might, ranged_combat→agility, and any unmapped skill name falls
back to the wits attribute. -/
theorem C7_attribute_selection_table (a : GameLoop.CharacterAttributes) :
    GameLoop.attributeValue a "comtech" = a.wits
    ∧ GameLoop.attributeValue a "heavy_machinery" = a.might
    ∧ GameLoop.attributeValue a "medical_aid" = a.empathy
    ∧ GameLoop.attributeValue a "observation" = a.wits
    ∧ GameLoop.attributeValue a "close_combat" = a.might
    ∧ GameLoop.attributeValue a "ranged_combat" = a.agility
    ∧ ∀ s : String,
        s ∉ ["comtech", "heavy_machinery", "medical_aid", "observation",
             "close_combat", "ranged_combat"] →
        GameLoop.attributeValue a s = a.wits := by
  refine ⟨rfl, rfl, rfl, rfl, rfl, rfl, ?_⟩
  intro s hs
  simp only [List.mem_cons, List.not_mem_nil, or_false, not_or] at hs
  obtain ⟨h1, h2, h3, h4, h5, h6⟩ := hs
  have e1 : (s == "comtech") = false := by simp [h1]
  have e2 : (s == "heavy_machinery") = false := by simp [h2]
  have e3 : (s == "medical_aid") = false := by simp [h3]
  have e4 : (s == "observation") = false := by simp [h4]
  have e5 : (s == "close_combat") = false := by simp [h5]
  have e6 : (s == "ranged_combat") = false := by simp [h6]
  simp [GameLoop.attributeValue, GameLoop.attribute_map, List.lookup, e1, e2, e3, e4, e5, e6]

/-- Witness for C7: Miller's attributes, with the unmapped skill "stamina"
falling back to wits. -/
theorem C7_attribute_selection_table_witness :
    GameLoop.attributeValue GameLoop.miller.attributes "comtech" =
      GameLoop.miller.attributes.wits
    ∧ GameLoop.attributeValue GameLoop.miller.attributes "stamina" =
      GameLoop.miller.attributes.wits :=
  ⟨(C7_attribute_selection_table GameLoop.miller.attributes).1,
   (C7_attribute_selection_table GameLoop.miller.attributes).2.2.2.2.2.2 "stamina" (by decide)⟩

/-- C8: when the interpretation decided that no skill check is needed, the
resolver marks the outcome an automatic success and consumes no dice — it
reports zero draws and its result does not depend on the random source at
all. -/
theorem C8_no_check_auto_success_no_dice
    (c : GameLoop.Character) (dr : GameLoop.DirectorResult) (dice : Nat → Nat)
    (h : dr.skill_check_needed = false) :
    GameLoop.run_director_resolver c dr dice = some ({ dr with success := some true }, 0)
    ∧ ∀ dice' : Nat → Nat,
        GameLoop.run_director_resolver c dr dice' =
        GameLoop.run_director_resolver c dr dice := by
  constructor
  · simp [GameLoop.run_director_resolver, h]
  · intro dice'
    simp [GameLoop.run_director_resolver, h]

/-- Witness for C8: a no-check director result for Miller. -/
theorem C8_no_check_auto_success_no_dice_witness :
    GameLoop.run_director_resolver GameLoop.miller
      { skill_check_needed := false, skill_used := none, difficulty := none
        success := none, narration := "", state_updates := [] } (fun _ => 1) =
      some ({ skill_check_needed := false, skill_used := none, difficulty := none
              success := some true, narration := "", state_updates := [] }, 0) :=
  (C8_no_check_auto_success_no_dice GameLoop.miller
    { skill_check_needed := false, skill_used := none, difficulty := none
      success := none, narration := "", state_updates := [] } (fun _ => 1) rfl).1

/-- C9: the resolver is deterministic — two runs with the same character,
the same director result (attribute, skill, difficulty) and the same two
dice draws return the same result, even when the rest of the random streams
differ. -/
theorem C9_resolver_deterministic
    (c c' : GameLoop.Character) (dr dr' : GameLoop.DirectorResult)
    (dice dice' : Nat → Nat)
    (hc : c = c') (hdr : dr = dr')
    (h0 : dice 0 = dice' 0) (h1 : dice 1 = dice' 1) :
    GameLoop.run_director_resolver c dr dice =
    GameLoop.run_director_resolver c' dr' dice' := by
  subst hc
  subst hdr
  unfold GameLoop.run_director_resolver
  rw [h0, h1]

/-- Witness for C9: two different streams agreeing on the first two draws. -/
theorem C9_resolver_deterministic_witness :
    GameLoop.run_director_resolver GameLoop.miller
      { skill_check_needed := true, skill_used := some "comtech"
        difficulty := some "hard", success := none, narration := ""
        state_updates := [] } (fun n => n + 3) =
    GameLoop.run_director_resolver GameLoop.miller
      { skill_check_needed := true, skill_used := some "comtech"
        difficulty := some "hard", success := none, narration := ""
        state_updates := [] } (fun n => if n ≤ 1 then n + 3 else 6) :=
  C9_resolver_deterministic GameLoop.miller GameLoop.miller
    { skill_check_needed := true, skill_used := some "comtech"
      difficulty := some "hard", success := none, narration := ""
      state_updates := [] }
    { skill_check_needed := true, skill_used := some "comtech"
      difficulty := some "hard", success := none, narration := ""
      state_updates := [] }
    (fun n => n + 3) (fun n => if n ≤ 1 then n + 3 else 6) rfl rfl (by decide) (by decide)

/-- If every key of the update dict is neither a declared field nor an
inherited attribute, the setattr loop neither raises nor changes the
object. -/
theorem applySetattrs_of_all_unknown (d ca : List String)
    (u : List (String × String)) (o : WebApi.PyInstance)
    (h : ∀ kv ∈ u, d.contains kv.1 = false ∧ ca.contains kv.1 = false) :
    WebApi.applySetattrs d ca u o = Except.ok o := by
  induction u generalizing o with
  | nil => rfl
  | cons kv rest ih =>
      have hk := h kv (List.mem_cons_self kv rest)
      have hk1 : kv.1 ∉ d := by simpa using hk.1
      have hk2 : kv.1 ∉ ca := by simpa using hk.2
      have hg : WebApi.pyHasattr d ca kv.1 = false := by
        simp [WebApi.pyHasattr, hk1, hk2]
      have hstep : WebApi.applySetattrs d ca (kv :: rest) o =
          WebApi.applySetattrs d ca rest o := by
        show (if WebApi.pyHasattr d ca kv.1 = true then _ else
          WebApi.applySetattrs d ca rest o) = _
        rw [if_neg (by simp [hg])]
      rw [hstep]
      exact ih o (fun kv' hm => h kv' (List.mem_cons_of_mem kv hm))

/-- Every field name in the applied report is a declared model field. -/
theorem appliedFields_subset_declared (d : List String) (u : List (String × String))
    (k : String) (h : k ∈ WebApi.appliedFields d u) : k ∈ d := by
  unfold WebApi.appliedFields at h
  simp only [List.mem_map, List.mem_filter] at h
  obtain ⟨kv, ⟨_, hguard⟩, rfl⟩ := h
  simpa using hguard

/-- If no key of the update dict is a declared field, the applied report is
empty. -/
theorem appliedFields_of_all_unknown (d : List String) (u : List (String × String))
    (h : ∀ kv ∈ u, d.contains kv.1 = false) :
    WebApi.appliedFields d u = [] := by
  unfold WebApi.appliedFields
  rw [List.map_eq_nil_iff, List.filter_eq_nil_iff]
  intro kv hm
  simpa using h kv hm

/-- A run of the setattr loop that does not raise never modifies an
attribute outside the declared field list. -/
theorem applySetattrs_frame (d ca : List String) (u : List (String × String))
    (o o' : WebApi.PyInstance) (k : String)
    (hk : d.contains k = false)
    (h : WebApi.applySetattrs d ca u o = Except.ok o') :
    o' k = o k := by
  induction u generalizing o with
  | nil =>
      have h' : Except.ok (ε := String) o = Except.ok o' := h
      rw [← Except.ok.inj h']
  | cons kv rest ih =>
      have hstep : WebApi.applySetattrs d ca (kv :: rest) o =
          if WebApi.pyHasattr d ca kv.1 = true then
            match WebApi.pySetattr d kv.1 kv.2 o with
            | Except.ok obj2 => WebApi.applySetattrs d ca rest obj2
            | Except.error e => Except.error e
          else WebApi.applySetattrs d ca rest o := rfl
      rw [hstep] at h
      by_cases hg : WebApi.pyHasattr d ca kv.1 = true
      · rw [if_pos hg] at h
        unfold WebApi.pySetattr at h
        by_cases hd : d.contains kv.1 = true
        · rw [if_pos hd] at h
          have h' : WebApi.applySetattrs d ca rest (Function.update o kv.1 kv.2) =
              Except.ok o' := h
          have hne : k ≠ kv.1 := by
            intro e
            rw [e, hd] at hk
            cases hk
          rw [ih (Function.update o kv.1 kv.2) h', Function.update_noteq hne]
        · rw [if_neg hd] at h
          exact absurd h (by simp)
      · rw [if_neg hg] at h
        exact ih o h

/-- If no update key is a declared field but some key shadows an inherited
`BaseModel` attribute, the loop raises (the run is not ok). -/
theorem applySetattrs_raises_on_shadowed (d ca : List String)
    (u : List (String × String)) (o : WebApi.PyInstance)
    (hunk : ∀ kv ∈ u, d.contains kv.1 = false)
    (hsh : ∃ kv ∈ u, ca.contains kv.1 = true) :
    (WebApi.applySetattrs d ca u o).isOk = false := by
  induction u generalizing o with
  | nil =>
      obtain ⟨kv, hm, _⟩ := hsh
      cases hm
  | cons kv rest ih =>
      have hd := hunk kv (List.mem_cons_self kv rest)
      have hstep : WebApi.applySetattrs d ca (kv :: rest) o =
          if WebApi.pyHasattr d ca kv.1 = true then
            match WebApi.pySetattr d kv.1 kv.2 o with
            | Except.ok obj2 => WebApi.applySetattrs d ca rest obj2
            | Except.error e => Except.error e
          else WebApi.applySetattrs d ca rest o := rfl
      rw [hstep]
      have hd' : kv.1 ∉ d := by simpa using hd
      by_cases hca : ca.contains kv.1 = true
      · have hca' : kv.1 ∈ ca := by simpa using hca
        have hg : WebApi.pyHasattr d ca kv.1 = true := by
          simp [WebApi.pyHasattr, hca']
        rw [if_pos hg]
        unfold WebApi.pySetattr
        rw [if_neg (by simpa using hd)]
        rfl
      · have hca' : kv.1 ∉ ca := by simpa using hca
        have hg : ¬ WebApi.pyHasattr d ca kv.1 = true := by
          simp [WebApi.pyHasattr, hd', hca']
        rw [if_neg hg]
        obtain ⟨kv2, hm2, hca2⟩ := hsh
        rcases List.mem_cons.mp hm2 with he | hm2
        · rw [he] at hca2
          exact absurd hca2 hca
        · exact ih o (fun kv3 hm3 => hunk kv3 (List.mem_cons_of_mem kv hm3)) ⟨kv2, hm2, hca2⟩

/-- C5 (amended): only declared Zone/Character fields are ever assigned by
the state-commit operation; an unknown field name that is not also an
inherited pydantic attribute is silently skipped (no error), excluded from
the applied report, and a patch carrying only such keys leaves the
character and zone unchanged with an empty applied set; but an unknown key
that shadows an inherited `BaseModel` attribute (e.g. model_dump) passes the
`hasattr` guard and pydantic's setattr raises ValueError, so the commit
errors instead of ignoring that key.  (The Python method returns `None`;
the applied report is embedded as the set of fields the loop sets.) -/
theorem C5_commit_patch_semantics
    (classAttrs : List String) (gm : WebApi.GameManagerState)
    (updates : List (String × List (String × String)))
    (zu cu : List (String × String)) (o o2 : WebApi.PyInstance) (k : String) :
    (∀ f ∈ WebApi.appliedFields WebApi.zoneFieldNames zu, f ∈ WebApi.zoneFieldNames)
    ∧ (∀ f ∈ WebApi.appliedFields WebApi.characterFieldNames cu,
        f ∈ WebApi.characterFieldNames)
    ∧ (WebApi.zoneFieldNames.contains k = false →
        WebApi.applySetattrs WebApi.zoneFieldNames classAttrs zu o = Except.ok o2 →
        o2 k = o k)
    ∧ ((∀ kv ∈ zu, WebApi.zoneFieldNames.contains kv.1 = false ∧
          classAttrs.contains kv.1 = false) →
        WebApi.applySetattrs WebApi.zoneFieldNames classAttrs zu gm.zone =
          Except.ok gm.zone
        ∧ WebApi.appliedFields WebApi.zoneFieldNames zu = [])
    ∧ ((∀ kv ∈ cu, WebApi.characterFieldNames.contains kv.1 = false ∧
          classAttrs.contains kv.1 = false) →
        WebApi.applySetattrs WebApi.characterFieldNames classAttrs cu gm.character =
          Except.ok gm.character
        ∧ WebApi.appliedFields WebApi.characterFieldNames cu = [])
    ∧ ((∀ zu2, updates.lookup "zone" = some zu2 → ∀ kv ∈ zu2,
          WebApi.zoneFieldNames.contains kv.1 = false ∧
          classAttrs.contains kv.1 = false) →
       (∀ cu2, updates.lookup "character" = some cu2 → ∀ kv ∈ cu2,
          WebApi.characterFieldNames.contains kv.1 = false ∧
          classAttrs.contains kv.1 = false) →
       WebApi.apply_world_updates classAttrs gm updates = Except.ok gm)
    ∧ ((∀ kv ∈ zu, WebApi.zoneFieldNames.contains kv.1 = false) →
       (∃ kv ∈ zu, classAttrs.contains kv.1 = true) →
       (WebApi.applySetattrs WebApi.zoneFieldNames classAttrs zu o).isOk = false) := by
  refine ⟨fun f hf => appliedFields_subset_declared _ _ f hf,
          fun f hf => appliedFields_subset_declared _ _ f hf,
          fun hk h => applySetattrs_frame _ _ _ _ _ _ hk h,
          fun h => ⟨applySetattrs_of_all_unknown _ _ _ _ h,
                    appliedFields_of_all_unknown _ _ (fun kv hm => (h kv hm).1)⟩,
          fun h => ⟨applySetattrs_of_all_unknown _ _ _ _ h,
                    appliedFields_of_all_unknown _ _ (fun kv hm => (h kv hm).1)⟩,
          ?_,
          fun h1 h2 => applySetattrs_raises_on_shadowed _ _ _ _ h1 h2⟩
  intro hz hc
  unfold WebApi.apply_world_updates
  cases hzl : updates.lookup "zone" with
  | none =>
      cases hcl : updates.lookup "character" with
      | none => rfl
      | some cu2 =>
          have hsc := applySetattrs_of_all_unknown WebApi.characterFieldNames
            classAttrs cu2 gm.character (hc cu2 hcl)
          simp [hsc, Except.map]
  | some zu2 =>
      have hsz := applySetattrs_of_all_unknown WebApi.zoneFieldNames
        classAttrs zu2 gm.zone (hz zu2 hzl)
      cases hcl : updates.lookup "character" with
      | none => simp [hsz, Except.map]
      | some cu2 =>
          have hsc := applySetattrs_of_all_unknown WebApi.characterFieldNames
            classAttrs cu2 gm.character (hc cu2 hcl)
          simp [hsz, hsc, Except.map]

/-- C5 counterexample: "model_dump" is an unknown field name (not declared
on the Zone model), yet the commit does not silently ignore it — the
inherited `BaseModel` method makes `hasattr` true and pydantic's setattr
raises ValueError, so the patch application errors rather than applying
nothing. -/
theorem C5_commit_counterexample :
    WebApi.zoneFieldNames.contains "model_dump" = false
    ∧ (WebApi.applySetattrs WebApi.zoneFieldNames WebApi.pydanticClassAttrs
        [("model_dump", "boom")] (fun _ => "z")).isOk = false
    ∧ (WebApi.apply_world_updates WebApi.pydanticClassAttrs
        { current_turn := 3, game_log := [], character := fun _ => "c",
          zone := fun _ => "z" }
        [("zone", [("model_dump", "boom")])]).isOk = false :=
  ⟨rfl, rfl, rfl⟩

/-- Witness for the amended C5: a patch of truly-unknown keys is an ok
no-op with an empty applied set, while the key "copy" (shadowing the
inherited method) makes the zone loop raise. -/
theorem C5_commit_patch_semantics_witness :
    WebApi.apply_world_updates WebApi.pydanticClassAttrs
      { current_turn := 3, game_log := [], character := fun _ => "c",
        zone := fun _ => "z" }
      [("zone", [("warp_core", "online")]), ("character", [("mana", "7")])] =
      Except.ok { current_turn := 3, game_log := [], character := fun _ => "c", zone := fun _ => "z" }
    ∧ WebApi.appliedFields WebApi.zoneFieldNames [("warp_core", "online")] = []
    ∧ (WebApi.applySetattrs WebApi.zoneFieldNames WebApi.pydanticClassAttrs
        [("copy", "x")] (fun _ => "z")).isOk = false := by
  have h1 := C5_commit_patch_semantics WebApi.pydanticClassAttrs
    { current_turn := 3, game_log := [], character := fun _ => "c", zone := fun _ => "z" }
    [("zone", [("warp_core", "online")]), ("character", [("mana", "7")])]
    [("warp_core", "online")] [("mana", "7")] (fun _ => "z") (fun _ => "z") "q"
  have h2 := C5_commit_patch_semantics WebApi.pydanticClassAttrs
    { current_turn := 3, game_log := [], character := fun _ => "c", zone := fun _ => "z" }
    [] [("copy", "x")] [] (fun _ => "z") (fun _ => "z") "q"
  refine ⟨h1.2.2.2.2.2.1 ?_ ?_, (h1.2.2.2.1 (by decide)).2,
          h2.2.2.2.2.2.2 (by decide) (by decide)⟩
  · intro zu2 hzl kv hm
    have e : some [("warp_core", "online")] = some zu2 := hzl
    cases e
    simp only [List.mem_singleton] at hm
    subst hm
    decide
  · intro cu2 hcl kv hm
    have e : some [("mana", "7")] = some cu2 := hcl
    cases e
    simp only [List.mem_singleton] at hm
    subst hm
    decide

/-- C6: a commander command that is empty after trimming is rejected with a
400 error before any pipeline phase runs: the manager state (log and turn
counter) is returned untouched, and the result does not depend on the AI
capability outcome at all. -/
theorem C6_empty_command_rejected
    (classAttrs : List String)
    (gm : WebApi.GameManagerState) (cmd : String) (ai : WebApi.ProcessTurnResult)
    (h : WebApi.pyStrip cmd = "") :
    WebApi.advance_turn classAttrs gm cmd ai =
      (gm, Except.error { status_code := 400, detail := "Command cannot be empty" })
    ∧ (WebApi.advance_turn classAttrs gm cmd ai).1.current_turn = gm.current_turn
    ∧ (WebApi.advance_turn classAttrs gm cmd ai).1.game_log = gm.game_log
    ∧ ∀ ai' : WebApi.ProcessTurnResult,
        WebApi.advance_turn classAttrs gm cmd ai' =
        WebApi.advance_turn classAttrs gm cmd ai := by
  refine ⟨?_, ?_, ?_, ?_⟩ <;>
    first
      | (intro ai'
         unfold WebApi.advance_turn
         simp [h])
      | (unfold WebApi.advance_turn
         simp [h])

/-- Witness for C6: a whitespace-only command against a concrete manager. -/
theorem C6_empty_command_rejected_witness :
    WebApi.advance_turn WebApi.pydanticClassAttrs
      { current_turn := 5, game_log := [], character := fun _ => "c", zone := fun _ => "z" }
      "   "
      { actor_thoughts := "t", actor_speech := "s", narration := "n"
        world_updates := [], error := "" } =
      ({ current_turn := 5, game_log := [], character := fun _ => "c", zone := fun _ => "z" },
       Except.error { status_code := 400, detail := "Command cannot be empty" }) :=
  (C6_empty_command_rejected WebApi.pydanticClassAttrs
    { current_turn := 5, game_log := [], character := fun _ => "c", zone := fun _ => "z" }
    "   "
    { actor_thoughts := "t", actor_speech := "s", narration := "n"
      world_updates := [], error := "" } (by decide)).1

/-- The claim-side interpreter for C4, following the claim's wording
literally: a check is required when the target names a ZoneObject whose
properties contain `required_skill`; OTHERWISE (even when the target names an
object without that property) a locked Exit of the same name demands a
comtech/moderate check; otherwise no check. -/
def interpretC4Claim (intent : GameLoop.ActionIntent) (zone : GameLoop.Zone) :
    GameLoop.DirectorResult :=
  match (zone.objects.lookup intent.target).bind
      (fun obj => (obj.properties.lookup "required_skill").map (fun sk => (obj, sk))) with
  | some (obj, sk) =>
      { skill_check_needed := true, skill_used := some sk
        difficulty := some ((obj.properties.lookup "difficulty").getD "moderate")
        success := none, narration := "", state_updates := [] }
  | none =>
      match zone.exits.lookup intent.target with
      | some ex =>
          if ex.status = "locked" then
            { skill_check_needed := true, skill_used := some "comtech"
              difficulty := some "moderate", success := none, narration := ""
              state_updates := [] }
          else
            { skill_check_needed := false, skill_used := none, difficulty := none
              success := none, narration := "", state_updates := [] }
      | none =>
          { skill_check_needed := false, skill_used := none, difficulty := none
            success := none, narration := "", state_updates := [] }

/-- A zone whose objects map and exits map share a key: the object named
"maintenance_hatch" carries no `required_skill`, while the exit of the same
name is locked. -/
def c4Zone : GameLoop.Zone :=
  { id := "z1", name := "Test Zone", description := ""
    exits := [("maintenance_hatch",
      { toZone := "shaft", status := "locked", description := none, requirements := [] })]
    objects := [("maintenance_hatch",
      { name := "maintenance_hatch", description := "", status := "normal"
        properties := [], can_interact := true })]
    atmosphere := none }

/-- An intent targeting the shared name. -/
def c4Intent : GameLoop.ActionIntent :=
  { verb := "USE", target := "maintenance_hatch", usingItem := none
    speed := GameLoop.ActionSpeed.slow, rationale := "open it" }

/-- C4 counterexample: at `c4Intent`/`c4Zone` the claim's "otherwise" clause
(the target names no required_skill object and names a locked exit) demands a
comtech/moderate check, but the code's `elif` never consults the exits map
once the target is in the objects map, so it decides no check at all. -/
theorem C4_interpreter_counterexample :
    GameLoop.run_director_interpreter c4Intent c4Zone ≠ interpretC4Claim c4Intent c4Zone
    ∧ (GameLoop.run_director_interpreter c4Intent c4Zone).skill_check_needed = false
    ∧ (interpretC4Claim c4Intent c4Zone).skill_check_needed = true
    ∧ (c4Zone.exits.lookup c4Intent.target).map GameLoop.ZoneExit.status = some "locked"
    ∧ ((c4Zone.objects.lookup c4Intent.target).map
        (fun o => o.properties.lookup "required_skill")) = some none := by
  decide

/-- C4 as amended: membership in the objects map is decided first; a target
naming a ZoneObject requires a check iff that object's properties hold a
truthy (non-empty) `required_skill`, with the declared or default "moderate"
difficulty; only a target naming no object falls through to the exit rule
(locked exit ⇒ comtech/moderate check); otherwise no check is required. -/
theorem C4_interpreter_amended (intent : GameLoop.ActionIntent) (zone : GameLoop.Zone) :
    (∀ obj, zone.objects.lookup intent.target = some obj →
      (GameLoop.pyTruthyStr (obj.properties.lookup "required_skill") = true →
        GameLoop.run_director_interpreter intent zone =
          { skill_check_needed := true
            skill_used := obj.properties.lookup "required_skill"
            difficulty := some ((obj.properties.lookup "difficulty").getD "moderate")
            success := none, narration := "", state_updates := [] })
      ∧ (GameLoop.pyTruthyStr (obj.properties.lookup "required_skill") = false →
        GameLoop.run_director_interpreter intent zone =
          { skill_check_needed := false, skill_used := none, difficulty := none
            success := none, narration := "", state_updates := [] }))
    ∧ (zone.objects.lookup intent.target = none →
        (∀ ex, zone.exits.lookup intent.target = some ex →
          (ex.status = "locked" →
            GameLoop.run_director_interpreter intent zone =
              { skill_check_needed := true, skill_used := some "comtech"
                difficulty := some "moderate", success := none, narration := ""
                state_updates := [] })
          ∧ (ex.status ≠ "locked" →
            GameLoop.run_director_interpreter intent zone =
              { skill_check_needed := false, skill_used := none, difficulty := none
                success := none, narration := "", state_updates := [] }))
        ∧ (zone.exits.lookup intent.target = none →
            GameLoop.run_director_interpreter intent zone =
              { skill_check_needed := false, skill_used := none, difficulty := none
                success := none, narration := "", state_updates := [] })) := by
  constructor
  · intro obj hobj
    constructor
    · intro htruthy
      unfold GameLoop.run_director_interpreter
      rw [hobj]
      simp [htruthy]
    · intro hfalse
      unfold GameLoop.run_director_interpreter
      rw [hobj]
      simp [hfalse]
  · intro hnone
    constructor
    · intro ex hex
      constructor
      · intro hlock
        unfold GameLoop.run_director_interpreter
        rw [hnone, hex]
        simp [hlock]
      · intro hlock
        unfold GameLoop.run_director_interpreter
        rw [hnone, hex]
        simp [hlock]
    · intro hexn
      unfold GameLoop.run_director_interpreter
      rw [hnone, hexn]

/-- Witness for the amended C4 on the shipped medbay zone: targeting the
north door control panel (which declares required_skill comtech and
difficulty moderate) yields a comtech/moderate check. -/
theorem C4_interpreter_amended_witness :
    GameLoop.run_director_interpreter GameLoop.fallback_intent GameLoop.medbay_b =
      { skill_check_needed := true, skill_used := some "comtech"
        difficulty := some "moderate", success := none, narration := ""
        state_updates := [] } := by
  have h := ((C4_interpreter_amended GameLoop.fallback_intent GameLoop.medbay_b).1
    GameLoop.door_panel (by decide)).1 (by decide)
  exact h.trans (by decide)


/-- Looking up the key just updated by `setAssoc` yields the transformed
value. -/
theorem lookup_setAssoc_self {α : Type} (l : List (String × α)) (k : String)
    (f : α → α) (v : α) (h : l.lookup k = some v) :
    (GameLoop.setAssoc l k f).lookup k = some (f v) := by
  induction l with
  | nil => simp [List.lookup] at h
  | cons p rest ih =>
      obtain ⟨pk, pv⟩ := p
      by_cases hk : k = pk
      · subst hk
        have hv : pv = v := by simpa [List.lookup] using h
        subst hv
        unfold GameLoop.setAssoc
        rw [List.map_cons]
        rw [if_pos rfl]
        simp [List.lookup]
      · have hbeq : (k == pk) = false := by simp [hk]
        have hne : ¬(pk = k) := fun e => hk e.symm
        have h' : rest.lookup k = some v := by
          simpa [List.lookup, hbeq] using h
        unfold GameLoop.setAssoc
        rw [List.map_cons]
        rw [if_neg hne]
        have goal2 : (GameLoop.setAssoc rest k f).lookup k = some (f v) := ih h'
        unfold GameLoop.setAssoc at goal2
        simpa [List.lookup, hbeq] using goal2

/-- C10: the commit phase mutates zone state only on a successful REPAIR of
the north door control panel — there it sets that panel's status to
"functional" and the north_door exit's status to "unlocked", recording the
patch — and for every other combination of verb, target and outcome it
returns the zones and characters maps unchanged with an empty state_changes
patch. -/
theorem C10_commit_frame
    (gs : GameLoop.GameState) (c : GameLoop.Character) (sp : String)
    (i : GameLoop.ActionIntent) (dr : GameLoop.DirectorResult) :
    (¬(GameLoop.pyTruthyOptBool dr.success = true ∧ i.verb = "REPAIR" ∧
        i.target = "door_control_panel_north") →
      ∃ gs' dr' tr, GameLoop.run_director_state_updater gs c sp i dr = some (gs', dr', tr)
        ∧ gs'.zones = gs.zones ∧ gs'.characters = gs.characters
        ∧ tr.state_changes = [] ∧ dr'.state_updates = [])
    ∧ (GameLoop.pyTruthyOptBool dr.success = true → i.verb = "REPAIR" →
       i.target = "door_control_panel_north" →
       ∀ zone, gs.zones.lookup c.current_zone = some zone →
       ∀ obj, zone.objects.lookup "door_control_panel_north" = some obj →
       ∀ ex, zone.exits.lookup "north_door" = some ex →
       ∃ gs' dr' tr zone',
         GameLoop.run_director_state_updater gs c sp i dr = some (gs', dr', tr)
         ∧ gs'.zones.lookup c.current_zone = some zone'
         ∧ zone'.objects.lookup "door_control_panel_north" =
             some { obj with status := "functional" }
         ∧ zone'.exits.lookup "north_door" = some { ex with status := "unlocked" }
         ∧ gs'.characters = gs.characters
         ∧ tr.state_changes =
             [("door_control_panel_north", "repaired"), ("north_door", "unlocked")]) := by
  constructor
  · intro hneg
    by_cases h1 : GameLoop.pyTruthyOptBool dr.success = true ∧ i.verb = "REPAIR"
    · have h2 : ¬ i.target = "door_control_panel_north" := fun h2 =>
        hneg ⟨h1.1, h1.2, h2⟩
      have hrun : GameLoop.run_director_state_updater gs c sp i dr =
          some (GameLoop.finishTurn gs gs.zones c sp dr []) := by
        unfold GameLoop.run_director_state_updater GameLoop.computeStateUpdates
        simp [h1, h2]
      exact ⟨_, _, _, hrun, rfl, rfl, rfl, rfl⟩
    · have hrun : GameLoop.run_director_state_updater gs c sp i dr =
          some (GameLoop.finishTurn gs gs.zones c sp dr []) := by
        unfold GameLoop.run_director_state_updater GameLoop.computeStateUpdates
        simp [h1]
      exact ⟨_, _, _, hrun, rfl, rfl, rfl, rfl⟩
  · intro hS hV hT zone hzone obj hobj ex hex
    have hcomp : GameLoop.computeStateUpdates gs c i dr =
        some (GameLoop.setAssoc gs.zones c.current_zone
                (fun _ => { zone with
                  objects := GameLoop.setAssoc zone.objects "door_control_panel_north"
                    (fun o => { o with status := "functional" })
                  exits := GameLoop.setAssoc zone.exits "north_door"
                    (fun e => { e with status := "unlocked" }) }),
              [("door_control_panel_north", "repaired"), ("north_door", "unlocked")]) := by
      unfold GameLoop.computeStateUpdates
      rw [if_pos ⟨hS, hV⟩, if_pos hT, hzone]
      simp [hobj, hex]
    have hrun : GameLoop.run_director_state_updater gs c sp i dr =
        some (GameLoop.finishTurn gs
          (GameLoop.setAssoc gs.zones c.current_zone
            (fun _ => { zone with
              objects := GameLoop.setAssoc zone.objects "door_control_panel_north"
                (fun o => { o with status := "functional" })
              exits := GameLoop.setAssoc zone.exits "north_door"
                (fun e => { e with status := "unlocked" }) }))
          c sp dr
          [("door_control_panel_north", "repaired"), ("north_door", "unlocked")]) := by
      unfold GameLoop.run_director_state_updater
      rw [hcomp]
    refine ⟨_, _, _, { zone with
        objects := GameLoop.setAssoc zone.objects "door_control_panel_north"
          (fun o => { o with status := "functional" })
        exits := GameLoop.setAssoc zone.exits "north_door"
          (fun e => { e with status := "unlocked" }) },
      hrun, ?_, ?_, ?_, rfl, rfl⟩
    · exact lookup_setAssoc_self gs.zones c.current_zone
        (fun _ => { zone with
          objects := GameLoop.setAssoc zone.objects "door_control_panel_north"
            (fun o => { o with status := "functional" })
          exits := GameLoop.setAssoc zone.exits "north_door"
            (fun e => { e with status := "unlocked" }) }) zone hzone
    · exact lookup_setAssoc_self zone.objects "door_control_panel_north"
        (fun o => { o with status := "functional" }) obj hobj
    · exact lookup_setAssoc_self zone.exits "north_door"
        (fun e => { e with status := "unlocked" }) ex hex

set_option maxRecDepth 4000 in
/-- Witness for C10: a successful REPAIR of the panel in the shipped medbay
state flips the panel to functional and the north door to unlocked. -/
theorem C10_commit_frame_witness :
    ∃ gs' dr' tr zone',
      GameLoop.run_director_state_updater GameLoop.initial_game_state GameLoop.miller
        "On it."
        { verb := "REPAIR", target := "door_control_panel_north", usingItem := some "multitool"
          speed := GameLoop.ActionSpeed.slow, rationale := "fix the panel" }
        { skill_check_needed := true, skill_used := some "comtech"
          difficulty := some "moderate", success := some true, narration := "done"
          state_updates := [] } = some (gs', dr', tr)
      ∧ gs'.zones.lookup GameLoop.miller.current_zone = some zone'
      ∧ zone'.objects.lookup "door_control_panel_north" =
          some { GameLoop.door_panel with status := "functional" }
      ∧ zone'.exits.lookup "north_door" =
          some { GameLoop.north_door with status := "unlocked" }
      ∧ gs'.characters = GameLoop.initial_game_state.characters
      ∧ tr.state_changes =
          [("door_control_panel_north", "repaired"), ("north_door", "unlocked")] :=
  (C10_commit_frame GameLoop.initial_game_state GameLoop.miller "On it."
    { verb := "REPAIR", target := "door_control_panel_north", usingItem := some "multitool"
      speed := GameLoop.ActionSpeed.slow, rationale := "fix the panel" }
    { skill_check_needed := true, skill_used := some "comtech"
      difficulty := some "moderate", success := some true, narration := "done"
      state_updates := [] }).2 rfl rfl rfl GameLoop.medbay_b (by decide)
    GameLoop.door_panel (by decide) GameLoop.north_door (by decide)

/-- Whenever the state updater commits (returns `some`), it increments the
counter by exactly 1, appends exactly the produced TurnResult, stamps it with
the pre-increment counter, and leaves the characters map unchanged. -/
theorem state_updater_commit_effect
    (gs : GameLoop.GameState) (c : GameLoop.Character) (sp : String)
    (i : GameLoop.ActionIntent) (dr : GameLoop.DirectorResult)
    (gs' : GameLoop.GameState) (dr' : GameLoop.DirectorResult)
    (tr : GameLoop.TurnResult)
    (h : GameLoop.run_director_state_updater gs c sp i dr = some (gs', dr', tr)) :
    gs'.current_turn = gs.current_turn + 1
    ∧ gs'.game_log = gs.game_log ++ [tr]
    ∧ tr.turn_number = gs.current_turn
    ∧ gs'.characters = gs.characters := by
  unfold GameLoop.run_director_state_updater at h
  cases hc : GameLoop.computeStateUpdates gs c i dr with
  | none => rw [hc] at h; cases h
  | some zs =>
      rw [hc] at h
      obtain ⟨zones, su⟩ := zs
      have h' : GameLoop.finishTurn gs zones c sp dr su = (gs', dr', tr) :=
        Option.some.inj h
      have e1 : gs' = (GameLoop.finishTurn gs zones c sp dr su).1 := by rw [h']
      have e3 : tr = (GameLoop.finishTurn gs zones c sp dr su).2.2 := by rw [h']
      subst e1
      subst e3
      exact ⟨rfl, rfl, rfl, rfl⟩

/-- `List.range'` with unit step grows by its upper end. -/
theorem range'_one_concat (n : Nat) :
    List.range' 1 (n + 1) = List.range' 1 n ++ [n + 1] := by
  rw [List.range'_concat]
  simp [Nat.add_comm]

/-- One engine turn preserves the counter/log invariant: the counter is one
past the number of logged turns and the logged turn numbers are 1..length. -/
theorem runTurn_preserves_inv (gs : GameLoop.GameState) (st : GameLoop.TurnStep)
    (h1 : gs.current_turn = gs.game_log.length + 1)
    (h2 : gs.game_log.map GameLoop.TurnResult.turn_number =
      List.range' 1 gs.game_log.length) :
    (GameLoop.runTurn gs st).current_turn = (GameLoop.runTurn gs st).game_log.length + 1
    ∧ (GameLoop.runTurn gs st).game_log.map GameLoop.TurnResult.turn_number =
      List.range' 1 (GameLoop.runTurn gs st).game_log.length := by
  cases st with
  | aborted => exact ⟨h1, h2⟩
  | committed c sp i dr =>
      cases hu : GameLoop.run_director_state_updater gs c sp i dr with
      | none =>
          simp only [GameLoop.runTurn, hu]
          exact ⟨h1, h2⟩
      | some out =>
          obtain ⟨gs', dr', tr⟩ := out
          obtain ⟨e1, e2, e3, _⟩ := state_updater_commit_effect gs c sp i dr gs' dr' tr hu
          simp only [GameLoop.runTurn, hu]
          constructor
          · rw [e1, e2, h1, List.length_append]
            rfl
          · rw [e2, List.map_append, h2, List.length_append]
            simp only [List.map_cons, List.map_nil, List.length_cons, List.length_nil]
            rw [e3, h1]
            exact (range'_one_concat gs.game_log.length).symm

/-- The invariant holds after any sequence of turns from an invariant state. -/
theorem runTurns_preserves_inv (steps : List GameLoop.TurnStep)
    (gs : GameLoop.GameState)
    (h1 : gs.current_turn = gs.game_log.length + 1)
    (h2 : gs.game_log.map GameLoop.TurnResult.turn_number =
      List.range' 1 gs.game_log.length) :
    (GameLoop.runTurns gs steps).current_turn =
      (GameLoop.runTurns gs steps).game_log.length + 1
    ∧ (GameLoop.runTurns gs steps).game_log.map GameLoop.TurnResult.turn_number =
      List.range' 1 (GameLoop.runTurns gs steps).game_log.length := by
  induction steps generalizing gs with
  | nil => exact ⟨h1, h2⟩
  | cons st rest ih =>
      have hstep := runTurn_preserves_inv gs st h1 h2
      exact ih (GameLoop.runTurn gs st) hstep.1 hstep.2

/-- C2: from the shipped initial state the turn counter starts at 1 and the
log starts empty; after any sequence of committed and aborted turns the
logged TurnResult numbers are exactly 1, 2, ..., n (strictly increasing and
gap-free from 1); each committed turn appends one TurnResult stamped with the
pre-increment counter and advances the counter by exactly 1, and an aborted
turn changes nothing. -/
theorem C2_turn_numbers_contiguous :
    GameLoop.initial_game_state.current_turn = 1
    ∧ GameLoop.initial_game_state.game_log = []
    ∧ (∀ steps : List GameLoop.TurnStep,
        (GameLoop.runTurns GameLoop.initial_game_state steps).game_log.map
          GameLoop.TurnResult.turn_number =
        List.range' 1
          (GameLoop.runTurns GameLoop.initial_game_state steps).game_log.length)
    ∧ (∀ gs c sp i dr gs' dr' tr,
        GameLoop.run_director_state_updater gs c sp i dr = some (gs', dr', tr) →
        gs'.current_turn = gs.current_turn + 1 ∧ tr.turn_number = gs.current_turn
        ∧ gs'.game_log = gs.game_log ++ [tr])
    ∧ ∀ gs : GameLoop.GameState, GameLoop.runTurn gs GameLoop.TurnStep.aborted = gs := by
  refine ⟨rfl, rfl, ?_, ?_, fun gs => rfl⟩
  · intro steps
    exact (runTurns_preserves_inv steps GameLoop.initial_game_state rfl rfl).2
  · intro gs c sp i dr gs' dr' tr h
    obtain ⟨e1, e2, e3, _⟩ := state_updater_commit_effect gs c sp i dr gs' dr' tr h
    exact ⟨e1, e3, e2⟩

set_option maxRecDepth 4000 in
/-- Witness for C2: one committed EXAMINE turn from the initial state moves
the counter from 1 to 2 and stamps the single log entry with turn number 1. -/
theorem C2_turn_numbers_contiguous_witness :
    ((GameLoop.run_director_state_updater GameLoop.initial_game_state GameLoop.miller
        "Checking it." GameLoop.fallback_intent
        { skill_check_needed := true, skill_used := some "comtech"
          difficulty := some "moderate", success := some true, narration := "n"
          state_updates := [] }).map
      (fun out => (out.1.current_turn, out.2.2.turn_number, out.1.game_log.length))) =
      some (2, 1, 1) := by
  cases hu : GameLoop.run_director_state_updater GameLoop.initial_game_state GameLoop.miller
      "Checking it." GameLoop.fallback_intent
      { skill_check_needed := true, skill_used := some "comtech"
        difficulty := some "moderate", success := some true, narration := "n"
        state_updates := [] } with
  | none =>
      exact absurd hu (by decide)
  | some out =>
      obtain ⟨gs', dr', tr⟩ := out
      obtain ⟨e1, e2, e3⟩ :=
        C2_turn_numbers_contiguous.2.2.2.1 GameLoop.initial_game_state GameLoop.miller
          "Checking it." GameLoop.fallback_intent
          { skill_check_needed := true, skill_used := some "comtech"
            difficulty := some "moderate", success := some true, narration := "n"
            state_updates := [] } gs' dr' tr hu
      have hmap : ((some (gs', dr', tr)).map
          (fun out => (out.1.current_turn, out.2.2.turn_number, out.1.game_log.length))) =
          some (gs'.current_turn, tr.turn_number, gs'.game_log.length) := rfl
      rw [hmap, e1, e2, e3]
      rfl

set_option maxRecDepth 8000 in
/-- C3 counterexample: in the 5-phase engine a failed Actor invocation does
NOT abort the turn.  `run_ai_actor` catches the exception and substitutes the
fallback EXAMINE intent, and the full graph then commits: from the shipped
initial state (counter 1, empty log) with the Actor capability failing
(`none`) and both dice showing 6, the run returns a committed state whose
counter advanced to 2 and whose log holds one appended TurnResult. -/
theorem C3_actor_failure_engine_counterexample :
    ((GameLoop.run_narrative_graph GameLoop.initial_game_state GameLoop.miller
        GameLoop.medbay_b none (fun _ => 6)).map
      (fun out => (out.1.current_turn, out.1.game_log.length))) = some (2, 1) := by
  decide

/-- C3 (amended): in the API pipeline (`main.py`), a failed AI turn aborts:
the 500 error is raised, the turn counter does not advance, no world patch is
applied (zone and character are untouched), and exactly one system-channel
log entry recording the failure reason is appended after the logged commander
input; in the 5-phase engine, a failed Actor invocation is instead absorbed
by the fallback EXAMINE response and the turn proceeds. -/
theorem C3_actor_failure_aborts_api_turn
    (classAttrs : List String)
    (gm : WebApi.GameManagerState) (cmd : String) (ai : WebApi.ProcessTurnResult)
    (hcmd : WebApi.pyStrip cmd ≠ "") (herr : ai.error ≠ "") :
    WebApi.advance_turn classAttrs gm cmd ai =
      (WebApi.add_log_entry
        (WebApi.add_log_entry gm WebApi.MessageType.COMMANDER (WebApi.pyStrip cmd)
          "Commander")
        WebApi.MessageType.SYSTEM ("AI Error: " ++ ai.error) "System",
       Except.error { status_code := 500, detail := ai.error })
    ∧ (WebApi.advance_turn classAttrs gm cmd ai).1.current_turn = gm.current_turn
    ∧ (WebApi.advance_turn classAttrs gm cmd ai).1.zone = gm.zone
    ∧ (WebApi.advance_turn classAttrs gm cmd ai).1.character = gm.character
    ∧ (WebApi.advance_turn classAttrs gm cmd ai).1.game_log =
        gm.game_log ++
          [{ turn := gm.current_turn, type := WebApi.MessageType.COMMANDER
             content := WebApi.pyStrip cmd, author := "Commander" },
           { turn := gm.current_turn, type := WebApi.MessageType.SYSTEM
             content := "AI Error: " ++ ai.error, author := "System" }]
    ∧ GameLoop.run_ai_actor none = GameLoop.fallback_response := by
  have hrun : WebApi.advance_turn classAttrs gm cmd ai =
      (WebApi.add_log_entry
        (WebApi.add_log_entry gm WebApi.MessageType.COMMANDER (WebApi.pyStrip cmd)
          "Commander")
        WebApi.MessageType.SYSTEM ("AI Error: " ++ ai.error) "System",
       Except.error { status_code := 500, detail := ai.error }) := by
    unfold WebApi.advance_turn
    simp [hcmd, herr]
  refine ⟨hrun, ?_, ?_, ?_, ?_, rfl⟩
  · rw [hrun]; rfl
  · rw [hrun]; rfl
  · rw [hrun]; rfl
  · rw [hrun]
    unfold WebApi.add_log_entry
    simp

/-- Witness for the amended C3: a concrete manager, the command "Open it"
and an AI failure "timeout" leave the counter at 7 and append the commander
and system entries only. -/
theorem C3_actor_failure_aborts_api_turn_witness :
    WebApi.advance_turn WebApi.pydanticClassAttrs
      { current_turn := 7, game_log := [], character := fun _ => "c", zone := fun _ => "z" }
      "Open it"
      { actor_thoughts := "t", actor_speech := "s", narration := "n"
        world_updates := [("zone", [("name", "Hacked")])], error := "timeout" } =
      (WebApi.add_log_entry
        (WebApi.add_log_entry
          { current_turn := 7, game_log := [], character := fun _ => "c", zone := fun _ => "z" }
          WebApi.MessageType.COMMANDER (WebApi.pyStrip "Open it") "Commander")
        WebApi.MessageType.SYSTEM ("AI Error: " ++ "timeout") "System",
       Except.error { status_code := 500, detail := "timeout" }) :=
  (C3_actor_failure_aborts_api_turn WebApi.pydanticClassAttrs
    { current_turn := 7, game_log := [], character := fun _ => "c", zone := fun _ => "z" }
    "Open it"
    { actor_thoughts := "t", actor_speech := "s", narration := "n"
      world_updates := [("zone", [("name", "Hacked")])], error := "timeout" }
    (by decide) (by decide)).1
